import Mathlib

/-!
Shallow embedding of the husk diagnostics stack (Go sources) in Lean 4,
together with theorems checking the natural-language specification against
the code.  Bytes are modelled as `Nat` values below 256, `uint16` values as
`Nat` below 65536, with explicit truncation where the Go code truncates.
Fallible code (index-out-of-range panics, retries) is modelled with
`Option` / sum types.
-/

namespace Husk

/-! ### canbus: CAN frames (src/canbus/frame.go) -/

/-- CAN frame, from `type CanFrame struct { ID uint16; DLC byte; Data [8]byte }`.
`Data` models the fixed 8-byte array as a list of length 8. -/
structure CanFrame where
  ID : Nat
  DLC : Nat
  Data : List Nat
deriving DecidableEq

/-! ### drivers: serial link protocol (src/unnamed/part_013, ArduinoDriver) -/

def ArduinoStartMarker : Nat := 0x7E
def ArduinoEndMarker : Nat := 0x7F
def ArduinoEscapeChar : Nat := 0x1B
def ArduinoACK : Nat := 0x06
def ArduinoNACK : Nat := 0x15
def ArduinoMaxRetries : Nat := 3
def ArduinoRetryDelayMs : Nat := 200
def ArduinoExponentialBackoffFactor : Nat := 2

/-- One `xorShift` step of `calculateCRC8`: xor the byte in, then 8 rounds of
the MSB-first CRC-8 update with polynomial 0x07.  Byte overflow of the Go
`crc << 1` is the explicit `% 256`. -/
def xorShift (crc b : Nat) : Nat :=
  (List.range 8).foldl
    (fun c _ => if c &&& 0x80 ≠ 0 then ((c <<< 1) % 256) ^^^ 0x07 else (c <<< 1) % 256)
    ((crc ^^^ b) % 256)

/-- CRC-8 of a CAN frame over idHigh, idLow, DLC and the first DLC data
bytes, from `calculateCRC8`. -/
def calculateCRC8 (frame : CanFrame) : Nat :=
  let idBytes : List Nat := [(frame.ID >>> 8) % 256, frame.ID &&& 0xFF]
  let crc := idBytes.foldl xorShift 0
  let crc := xorShift crc frame.DLC
  ((List.range frame.DLC).map (fun i => frame.Data.getD i 0)).foldl xorShift crc

/-- Body bytes of the link frame, from `frameToBytes`:
idHigh, idLow, DLC, Data[0..DLC-1], CRC8. -/
def frameToBytes (frame : CanFrame) : List Nat :=
  [(frame.ID >>> 8) &&& 0xFF, frame.ID &&& 0xFF, frame.DLC]
    ++ (List.range frame.DLC).map (fun i => frame.Data.getD i 0)
    ++ [calculateCRC8 frame]

/-- Byte stuffing, from `stuffByte`. -/
def stuffByte (b : Nat) : List Nat :=
  if b = ArduinoStartMarker then [ArduinoEscapeChar, 0x01]
  else if b = ArduinoEndMarker then [ArduinoEscapeChar, 0x02]
  else if b = ArduinoEscapeChar then [ArduinoEscapeChar, 0x03]
  else [b]

/-- Full encoded link frame, from `createFrameBytes`:
start marker, stuffed body, end marker. -/
def createFrameBytes (frame : CanFrame) : List Nat :=
  ArduinoStartMarker :: ((frameToBytes frame).flatMap stuffByte ++ [ArduinoEndMarker])

/-- Unstuffing of the byte following an escape character, from
`unstuffByte`; `none` is the invalid-escape error. -/
def unstuffByte (b : Nat) : Option Nat :=
  if b = 0x01 then some ArduinoStartMarker
  else if b = 0x02 then some ArduinoEndMarker
  else if b = 0x03 then some ArduinoEscapeChar
  else none

/-- Byte-level reader state machine of `assembleFramesFromSerial`: walks the
serial byte stream with state (inFrame, buffer) and returns the list of
assembled (unstuffed) frame bodies handed to the read channel.  ACK/NACK
bytes outside a frame go to the ack channel; an invalid escape discards the
in-progress frame. -/
def assembleFrames : List Nat → Bool → List Nat → List (List Nat) → List (List Nat)
  | [], _, _, acc => acc
  | b :: rest, inFrame, buffer, acc =>
    if inFrame = false ∧ (b = ArduinoACK ∨ b = ArduinoNACK) then
      assembleFrames rest inFrame buffer acc
    else if b = ArduinoStartMarker then
      assembleFrames rest true [] acc
    else if b = ArduinoEndMarker ∧ inFrame = true then
      assembleFrames rest false buffer (acc ++ [buffer])
    else if inFrame = true ∧ b = ArduinoEscapeChar then
      match rest with
      | [] => acc
      | b2 :: rest2 =>
        match unstuffByte b2 with
        | some ub => assembleFrames rest2 true (buffer ++ [ub]) acc
        | none => assembleFrames rest2 false [] acc
    else if inFrame = true then
      assembleFrames rest inFrame (buffer ++ [b]) acc
    else
      assembleFrames rest inFrame buffer acc
termination_by l _ _ _ => l.length
decreasing_by all_goals simp_arith

/-- Frame-validation step of `ArduinoDriver.readFrame` on one unstuffed
body: length and DLC checks, CRC-8 recomputation; `none` covers every
NACK-and-drop branch. -/
def readFrame (unstuffedBytes : List Nat) : Option CanFrame :=
  if unstuffedBytes.length < 4 then none
  else
    let id := ((unstuffedBytes.getD 0 0) <<< 8) ||| unstuffedBytes.getD 1 0
    let dlc := unstuffedBytes.getD 2 0
    if 8 < dlc then none
    else if unstuffedBytes.length < 3 + dlc + 1 then none
    else
      let dataBuffer := (unstuffedBytes.drop 3).take dlc ++ List.replicate (8 - dlc) 0
      let frame : CanFrame := ⟨id, dlc, dataBuffer⟩
      let receivedChecksum := unstuffedBytes.getD (3 + dlc) 0
      if calculateCRC8 frame = receivedChecksum then some frame else none

/-- Link decoding of one serial byte stream: run the reader state machine
and validate the single assembled body. -/
def decodeLink (stream : List Nat) : Option CanFrame :=
  match assembleFrames stream false [] [] with
  | [body] => readFrame body
  | _ => none

/-- Outcome of one wait on the ack channel in `ArduinoDriver.SendFrame`. -/
inductive AckOutcome
  | ack
  | nack
  | timeout
deriving DecidableEq

/-- Observable trace of one `SendFrame` call: how many times the frame bytes
were enqueued on the write channel, the backoff sleeps performed (ms), and
whether the call returned success. -/
structure SendTrace where
  enqueues : Nat
  sleepsMs : List Nat
  acked : Bool
deriving DecidableEq

/-- Retry loop of `ArduinoDriver.SendFrame`: `for retries := 0; retries <
ArduinoMaxRetries && !ackReceived; retries++`, enqueueing the frame bytes,
waiting for ACK/NACK with a 100 ms timeout, and sleeping `retryDelay`
(starting 200 ms, doubling) after each failed wait.  `outcomes i` is what
the wait of iteration `i` yields. -/
def sendFrameLoop (outcomes : Nat → AckOutcome) (retries retryDelay enq : Nat)
    (sleeps : List Nat) : SendTrace :=
  if retries < ArduinoMaxRetries then
    match outcomes retries with
    | .ack => { enqueues := enq + 1, sleepsMs := sleeps, acked := true }
    | _ =>
      sendFrameLoop outcomes (retries + 1) (retryDelay * ArduinoExponentialBackoffFactor)
        (enq + 1) (sleeps ++ [retryDelay])
  else { enqueues := enq, sleepsMs := sleeps, acked := false }
termination_by ArduinoMaxRetries - retries

/-- `ArduinoDriver.SendFrame` as a function of the ack-wait outcomes;
`acked = false` is the NoAck failure after the loop. -/
def SendFrame (outcomes : Nat → AckOutcome) : SendTrace :=
  sendFrameLoop outcomes 0 ArduinoRetryDelayMs 0 []

/-! ### uds: codec and ISO-TP engine (src/uds/message.go, src/uds/broadcaster.go) -/

def PCIFrameTypeSF : Nat := 0x0
def PCIFrameTypeFF : Nat := 0x1
def PCIFrameTypeCF : Nat := 0x2
def PCIFrameTypeFC : Nat := 0x3
def TesterID : Nat := 0x7E0
def ECUID : Nat := 0x7E8
def NegativeResponseByte : Nat := 0x7F
def PositiveResponseServiceIdOffset : Nat := 0x40
def ServiceTesterPresent : Nat := 0x3E

/-- UDS message, from `type Message struct` in src/uds/message.go.
Go nil-able pointer fields become `Option`. -/
structure Message where
  SenderID : Nat
  ServiceID : Nat
  Subfunction : Option Nat
  NRC : Option Nat
  Data : List Nat
  IsResponse : Bool
  IsPositive : Option Bool
deriving DecidableEq

/-- Result of `RawDataToMessage`: a message, the `nil` returned on empty
input, or a Go index-out-of-range panic. -/
inductive DecodeResult
  | ok (m : Message)
  | nilMessage
  | indexOutOfRange
deriving DecidableEq

/-- `RawDataToMessage(senderID, rawData, isResponse)`.  The negative-response
branch reads `rawData[1]`, `rawData[2]` and slices `rawData[3:]`
unconditionally; inputs shorter than 3 bytes hit the out-of-range panic.
Byte subtraction of the positive-response offset wraps mod 256 as in Go. -/
def RawDataToMessage (senderID : Nat) (rawData : List Nat) (isResponse : Bool) :
    DecodeResult :=
  match rawData with
  | [] => .nilMessage
  | b0 :: rest =>
    if isResponse then
      if b0 ≠ NegativeResponseByte then
        .ok { SenderID := senderID
              ServiceID := (b0 + 256 - PositiveResponseServiceIdOffset) % 256
              Subfunction := rest.head?
              NRC := none
              Data := rest
              IsResponse := true
              IsPositive := some true }
      else
        match rest with
        | b1 :: b2 :: rest2 =>
          .ok { SenderID := senderID
                ServiceID := b1
                Subfunction := none
                NRC := some b2
                Data := rest2
                IsResponse := true
                IsPositive := some false }
        | _ => .indexOutOfRange
    else
      .ok { SenderID := senderID
            ServiceID := b0
            Subfunction := rest.head?
            NRC := none
            Data := rest
            IsResponse := false
            IsPositive := some false }

/-- `Message.ToRawData`.  Requests are serviceID, optional subfunction, then
`Data`; positive responses add 0x40 to the serviceID (byte arithmetic);
negative responses are 0x7F, serviceID, optional NRC, then `Data`. -/
def Message.ToRawData (m : Message) : List Nat :=
  if m.IsResponse = false then
    [m.ServiceID] ++ m.Subfunction.toList ++ m.Data
  else if m.IsPositive = some true then
    [(m.ServiceID + PositiveResponseServiceIdOffset) % 256] ++ m.Data
  else
    [NegativeResponseByte, m.ServiceID] ++ m.NRC.toList ++ m.Data

/-- CAN frame built by `sendSingleFrame`: PCI low nibble is the length,
`copy(frame.Data[1:], data)` fills at most 7 bytes, rest of the array is
zero, DLC is `byte(dataLength) + 1`. -/
def sendSingleFrame (id dataLength : Nat) (data : List Nat) : CanFrame :=
  { ID := id
    DLC := (dataLength % 256 + 1) % 256
    Data := (PCIFrameTypeSF ||| (dataLength &&& 0x0F))
      :: (data.take 7 ++ List.replicate (7 - data.length) 0) }

/-- CAN frame built by `sendFirstFrame`:
`frame.Data[0] = PCIFrameTypeFF | byte((dataLength>>8)&0x0F)` (note: the
constant 0x1 is or-ed in without a shift), `Data[1] = byte(dataLength&0xFF)`,
then the first 6 payload bytes; DLC = 8. -/
def sendFirstFrame (id dataLength : Nat) (data : List Nat) : CanFrame :=
  { ID := id
    DLC := 8
    Data := (PCIFrameTypeFF ||| ((dataLength >>> 8) &&& 0x0F))
      :: (dataLength &&& 0xFF)
      :: (data.take 6 ++ List.replicate (6 - data.length) 0) }

/-- Loop body of `sendConsecutiveFrames`: starting at `bytesSent = 6`,
each frame carries `min(remaining, 7)` payload bytes after the PCI byte
`(PCIFrameTypeCF << 4) | (frameIndex & 0x0F)`, with DLC `1 + bytesToSend`
and the frame index incremented mod 16. -/
def sendConsecutiveFramesLoop (id : Nat) (data : List Nat) (frameIndex bytesSent : Nat) :
    List CanFrame :=
  if bytesSent < data.length then
    let bytesToSend := min (data.length - bytesSent) 7
    let frame : CanFrame :=
      { ID := id
        DLC := 1 + bytesToSend
        Data := ((PCIFrameTypeCF <<< 4) ||| (frameIndex &&& 0x0F))
          :: ((data.drop bytesSent).take bytesToSend
              ++ List.replicate (7 - bytesToSend) 0) }
    frame :: sendConsecutiveFramesLoop id data ((frameIndex + 1) % 16) (bytesSent + bytesToSend)
  else []
termination_by data.length - bytesSent
decreasing_by simp +arith [min]; omega

/-- `sendConsecutiveFrames`: frame index starts at 1, first 6 bytes were
sent in the first frame. -/
def sendConsecutiveFrames (id : Nat) (data : List Nat) : List CanFrame :=
  sendConsecutiveFramesLoop id data 1 6

/-- The CAN frames a `Message.Send` call emits, in order: one single frame
when the encoded message fits in 7 bytes, otherwise the first frame followed
(after flow control) by the consecutive frames.  `uint16(len(rawData))` is
the explicit truncation. -/
def Message.SendFrames (m : Message) : List CanFrame :=
  let rawData := m.ToRawData
  let dataLength := rawData.length % 65536
  if dataLength ≤ 7 then
    [sendSingleFrame m.SenderID dataLength rawData]
  else
    sendFirstFrame m.SenderID dataLength rawData :: sendConsecutiveFrames m.SenderID rawData

/-- Frames emitted by `SendTesterPresent`: a request message with
serviceID 0x3E from the tester ID and every other field zero-valued. -/
def SendTesterPresentFrames : List CanFrame :=
  Message.SendFrames
    { SenderID := TesterID
      ServiceID := ServiceTesterPresent
      Subfunction := none
      NRC := none
      Data := []
      IsResponse := false
      IsPositive := none }

/-- `receiveSingleFrame`: the data length is the PCI low nibble and the
payload is the Go slice `frame.Data[1 : dataLength+1]` of the fixed 8-byte
array; `none` is the slice-bounds panic when `dataLength + 1 > 8`. -/
def receiveSingleFrame (frame : CanFrame) : Option (List Nat) :=
  let dataLength := (frame.Data.getD 0 0) &&& 0x0F
  if dataLength + 1 ≤ 8 then some ((frame.Data.drop 1).take dataLength)
  else none

/-- Dispatch performed by `uds.Read` on one received CAN frame. -/
inductive ReadDispatch
  | singleFrame (result : Option (List Nat))
  | firstFrame
  | ignored
deriving DecidableEq

/-- The `switch pciFrameType` step of `uds.Read` on a received frame:
upper PCI nibble 0x0 goes to `receiveSingleFrame`, 0x1 to the multi-frame
reception, anything else is ignored. -/
def ReadDispatchFrame (frame : CanFrame) : ReadDispatch :=
  let pciFrameType := ((frame.Data.getD 0 0) &&& 0xF0) >>> 4
  if pciFrameType = PCIFrameTypeSF then .singleFrame (receiveSingleFrame frame)
  else if pciFrameType = PCIFrameTypeFF then .firstFrame
  else .ignored

/-! ### seedkey (src/unnamed/part_022) -/

/-- Modelled from the spec: the type `SecurityLevel` and its constants
`SecurityLevel1`, `SecurityLevel2`, `SecurityLevel3` are declared outside
the provided sources; the spec describes levels 1, 2 and 3, with any other
level invalid. -/
abbrev SecurityLevel := Nat

def SecurityLevel1 : SecurityLevel := 1
def SecurityLevel2 : SecurityLevel := 2
def SecurityLevel3 : SecurityLevel := 3

/-- Result of `GenerateK01Key`: the `([2]byte, error)` pair collapses into a
key or one of the two error values. -/
inductive KeygenResult
  | ok (key : Nat × Nat)
  | missingMagicNumberForLevel1
  | invalidLevelInGenerateSeedKey
deriving DecidableEq

/-- `GenerateK01Key(seed, level)`: combine the seed bytes big-endian into a
16-bit value, multiply by the level magic in uint16 arithmetic (the Go
`& 0xFFFF` keeps the low 16 bits), split big-endian. -/
def GenerateK01Key (seed : Nat × Nat) (level : SecurityLevel) : KeygenResult :=
  if level = SecurityLevel1 then .missingMagicNumberForLevel1
  else if level = SecurityLevel2 ∨ level = SecurityLevel3 then
    let magicNumber : Nat := if level = SecurityLevel2 then 0x4D4E else 0x6F31
    let x := ((seed.1 <<< 8) ||| seed.2) % 65536
    let key := (magicNumber * x) &&& 0xFFFF
    .ok ((key >>> 8) &&& 0xFF, key &&& 0xFF)
  else .invalidLevelInGenerateSeedKey

/-! ### ecus: DTC extraction (src/ecus/ktm-16-20.go, ReadErrors) -/

/-- DTC scan loop of `ProcessorKTM16To20.ReadErrors`:
`for i := 1; i < len(data); i += 2` reading `data[i]` and `data[i+1]`.
Each DTC is the byte pair handed to the `%02X%02X` formatting; `none` is the
index-out-of-range panic of the `data[i+1]` access. -/
def dtcLoop (data : List Nat) (i : Nat) : Option (List (Nat × Nat)) :=
  if i < data.length then
    if i + 1 < data.length then
      match dtcLoop data (i + 2) with
      | some rest => some ((data.getD i 0, data.getD (i + 1) 0) :: rest)
      | none => none
    else none
  else some []
termination_by data.length - i
decreasing_by omega

/-- The DTC byte pairs `ReadErrors` extracts from a response payload. -/
def readErrorsDTCs (data : List Nat) : Option (List (Nat × Nat)) :=
  dtcLoop data 1

/-! ### Arithmetic helper lemmas for byte and uint16 reasoning -/

lemma and_255_eq_mod (x : Nat) : x &&& 0xFF = x % 256 := by
  have h := Nat.and_pow_two_sub_one_eq_mod x 8
  norm_num at h
  exact h

lemma and_65535_eq_mod (x : Nat) : x &&& 0xFFFF = x % 65536 := by
  have h := Nat.and_pow_two_sub_one_eq_mod x 16
  norm_num at h
  exact h

lemma lor_shift_byte (a b : Nat) (hb : b < 256) : (a <<< 8) ||| b = 256 * a + b := by
  have h := Nat.mul_add_lt_is_or (i := 8) (b := b) (by simpa using hb) a
  rw [Nat.shiftLeft_eq, Nat.mul_comm a (2 ^ 8), ← h]

lemma shiftRight_8_eq_div (x : Nat) : x >>> 8 = x / 256 := by
  rw [Nat.shiftRight_eq_div_pow]

/-- Reassembling the two ID bytes of the link body yields the original
16-bit CAN identifier. -/
lemma id_reassemble (id : Nat) (h : id < 65536) :
    (((id >>> 8) &&& 0xFF) <<< 8) ||| (id &&& 0xFF) = id := by
  have hdiv : id / 256 < 256 := by omega
  rw [shiftRight_8_eq_div, and_255_eq_mod, and_255_eq_mod, Nat.mod_eq_of_lt hdiv,
    lor_shift_byte _ _ (Nat.mod_lt _ (by norm_num))]
  omega

lemma key_bytes_split (k : Nat) (hk : k < 65536) :
    ((k >>> 8) &&& 0xFF, k &&& 0xFF) = (k / 256, k % 256) := by
  rw [shiftRight_8_eq_div, and_255_eq_mod, and_255_eq_mod,
    Nat.mod_eq_of_lt (by omega : k / 256 < 256)]

lemma keygen_ok_eval (m v : Nat) :
    (m * v % 65536) >>> 8 &&& 255 = m * v % 65536 / 256 ∧
    m * v % 65536 &&& 255 = m * v % 256 := by
  have hA : m * v % 65536 < 65536 := Nat.mod_lt _ (by norm_num)
  constructor
  · rw [shiftRight_8_eq_div, and_255_eq_mod]
    exact Nat.mod_eq_of_lt (by omega)
  · rw [and_255_eq_mod]
    exact Nat.mod_mod_of_dvd _ (by norm_num)

/-! ### Claim theorems -/

/-- C2 (counterexample): the claim says the TesterPresent single frame has
first data byte 0x02; the code encodes TesterPresent to the single byte
0x3E, so the SF PCI carries length 1 and the first data byte is 0x01. -/
theorem C2_counterexample :
    SendTesterPresentFrames.length = 1 ∧
    (SendTesterPresentFrames.getD 0 ⟨0, 0, []⟩).Data.getD 0 0 = 0x01 ∧
    ¬ (SendTesterPresentFrames.getD 0 ⟨0, 0, []⟩).Data.getD 0 0 = 0x02 := by
  decide

/-- C2 (amended): sending the UDS TesterPresent message produces exactly one
CAN frame with ID 0x7E0, DLC 2, first data byte equal to the single-frame
PCI 0x01 (SF length 1) and second data byte 0x3E. -/
theorem C2_tester_present_frame :
    SendTesterPresentFrames =
      [{ ID := 0x7E0, DLC := 2, Data := [0x01, 0x3E, 0, 0, 0, 0, 0, 0] }] := by
  decide

/-- C4 (counterexample): the encode/decode round trip is not the identity on
requests: for the request with serviceID 0x1A, subfunction 0x02 and empty
payload, the decoded payload field is [0x02], not []. -/
theorem C4_counterexample :
    RawDataToMessage 0x7E0
      (Message.ToRawData
        { SenderID := 0x7E0, ServiceID := 0x1A, Subfunction := some 0x02, NRC := none,
          Data := [], IsResponse := false, IsPositive := some false }) false
    ≠ DecodeResult.ok
        { SenderID := 0x7E0, ServiceID := 0x1A, Subfunction := some 0x02, NRC := none,
          Data := [], IsResponse := false, IsPositive := some false } := by
  decide

/-- C4 (amended): decoding an encoded request with isResponse = false
preserves senderID and serviceID, yields no NRC, direction request,
polarity pointer set to false; the decoded payload field is the optional
subfunction byte followed by the original payload, and the decoded
subfunction is the first byte of that sequence (the original subfunction
when present, otherwise the first payload byte, absent when both are
empty).  The round trip is the identity exactly on requests with no
subfunction and empty payload. -/
theorem C4_request_decode_encode (m : Message) (h : m.IsResponse = false) :
    RawDataToMessage m.SenderID m.ToRawData false =
      .ok { SenderID := m.SenderID
            ServiceID := m.ServiceID
            Subfunction := (m.Subfunction.toList ++ m.Data).head?
            NRC := none
            Data := m.Subfunction.toList ++ m.Data
            IsResponse := false
            IsPositive := some false } := by
  simp [Message.ToRawData, h, RawDataToMessage]

/-- C4 (witness): concrete instance of the amended round-trip theorem. -/
theorem C4_request_decode_encode_witness :
    RawDataToMessage 0x7E0
      (Message.ToRawData
        { SenderID := 0x7E0, ServiceID := 0x1A, Subfunction := some 0x02, NRC := none,
          Data := [0xAB], IsResponse := false, IsPositive := some false }) false =
      .ok { SenderID := 0x7E0, ServiceID := 0x1A, Subfunction := some 0x02, NRC := none,
            Data := [0x02, 0xAB], IsResponse := false, IsPositive := some false } := by
  have h := C4_request_decode_encode
    { SenderID := 0x7E0, ServiceID := 0x1A, Subfunction := some 0x02, NRC := none,
      Data := [0xAB], IsResponse := false, IsPositive := some false } rfl
  exact h

/-- C6: `GenerateK01Key` combines the 2-byte seed big-endian into a 16-bit
value x, uses magic 0x4D4E for Level 2 and 0x6F31 for Level 3 and returns
the big-endian bytes of `(magic * x) mod 2^16`; Level 1 fails with the
missing-magic error and any other level with the invalid-level error, with
no key returned in either failure case. -/
theorem C6_generate_key_spec (s0 s1 : Nat) (h0 : s0 < 256) (h1 : s1 < 256) :
    GenerateK01Key (s0, s1) SecurityLevel2 =
      .ok (0x4D4E * (256 * s0 + s1) % 65536 / 256, 0x4D4E * (256 * s0 + s1) % 65536 % 256)
  ∧ GenerateK01Key (s0, s1) SecurityLevel3 =
      .ok (0x6F31 * (256 * s0 + s1) % 65536 / 256, 0x6F31 * (256 * s0 + s1) % 65536 % 256)
  ∧ GenerateK01Key (s0, s1) SecurityLevel1 = .missingMagicNumberForLevel1
  ∧ (∀ level : SecurityLevel, level ≠ SecurityLevel1 → level ≠ SecurityLevel2 →
      level ≠ SecurityLevel3 →
      GenerateK01Key (s0, s1) level = .invalidLevelInGenerateSeedKey) := by
  have hx : ((s0 <<< 8) ||| s1) % 65536 = 256 * s0 + s1 := by
    rw [lor_shift_byte _ _ h1]
    exact Nat.mod_eq_of_lt (by omega)
  refine ⟨?_, ?_, ?_, ?_⟩
  · simp only [GenerateK01Key, SecurityLevel1, SecurityLevel2, SecurityLevel3]
    norm_num
    rw [hx, and_65535_eq_mod]
    exact keygen_ok_eval 0x4D4E (256 * s0 + s1)
  · simp only [GenerateK01Key, SecurityLevel1, SecurityLevel2, SecurityLevel3]
    norm_num
    rw [hx, and_65535_eq_mod]
    exact keygen_ok_eval 0x6F31 (256 * s0 + s1)
  · simp [GenerateK01Key]
  · intro level hl1 hl2 hl3
    simp only [GenerateK01Key, SecurityLevel1, SecurityLevel2, SecurityLevel3] at hl1 hl2 hl3 ⊢
    rw [if_neg hl1, if_neg (by tauto)]

/-- C6 (witness): concrete instance of the keygen specification theorem. -/
theorem C6_generate_key_spec_witness :
    GenerateK01Key (0, 1) SecurityLevel2 = .ok (0x4D, 0x4E) := by
  have h := (C6_generate_key_spec 0 1 (by decide) (by decide)).1
  norm_num at h
  exact h

/-- C7 (counterexample): the claimed key for seed (0x12, 0x34) at Level 3 is
[0x39, 0xA4], but `0x6F31 * 0x1234 mod 2^16 = 0x07F4`, so the code returns
[0x07, 0xF4]. -/
theorem C7_counterexample :
    GenerateK01Key (0x12, 0x34) SecurityLevel3 = .ok (0x07, 0xF4) ∧
    ¬ GenerateK01Key (0x12, 0x34) SecurityLevel3 = .ok (0x39, 0xA4) := by
  decide

/-- C7 (amended): `GenerateK01Key` applied to seed (0x00, 0x01) at Level 2
returns [0x4D, 0x4E], and applied to seed (0x12, 0x34) at Level 3 returns
[0x07, 0xF4]. -/
theorem C7_keygen_values :
    GenerateK01Key (0x00, 0x01) SecurityLevel2 = .ok (0x4D, 0x4E) ∧
    GenerateK01Key (0x12, 0x34) SecurityLevel3 = .ok (0x07, 0xF4) := by
  decide

/-- C8 (counterexample): the single-frame extraction is not in bounds for
every received frame: a frame whose PCI byte is 0x0F (upper nibble 0, low
nibble 15) reaches the out-of-bounds branch of `frame.Data[1:n+1]` from the
dispatch of `uds.Read`. -/
theorem C8_counterexample :
    ((([0x0F, 0, 0, 0, 0, 0, 0, 0] : List Nat).getD 0 0) &&& 0xF0) >>> 4 = PCIFrameTypeSF ∧
    receiveSingleFrame ⟨0x7E8, 8, [0x0F, 0, 0, 0, 0, 0, 0, 0]⟩ = none ∧
    ReadDispatchFrame ⟨0x7E8, 8, [0x0F, 0, 0, 0, 0, 0, 0, 0]⟩ = .singleFrame none := by
  decide

/-- C8 (amended): for every received frame whose PCI upper nibble is 0 with
low nibble n, the single-frame extraction reached from the public ISO-TP
read returns exactly the first n bytes after the PCI when n ≤ 7, and for
some received frame with n > 7 the out-of-bounds branch of the embedded
slice operation is reached. -/
theorem C8_single_frame_bounds :
    (∀ frame : CanFrame,
        ((frame.Data.getD 0 0) &&& 0xF0) >>> 4 = PCIFrameTypeSF →
        (frame.Data.getD 0 0) &&& 0x0F ≤ 7 →
        ReadDispatchFrame frame =
          .singleFrame (some ((frame.Data.drop 1).take ((frame.Data.getD 0 0) &&& 0x0F))))
  ∧ (∃ frame : CanFrame,
        ((frame.Data.getD 0 0) &&& 0xF0) >>> 4 = PCIFrameTypeSF ∧
        7 < (frame.Data.getD 0 0) &&& 0x0F ∧
        ReadDispatchFrame frame = .singleFrame none) := by
  constructor
  · intro frame hUpper hLow
    simp only [ReadDispatchFrame, receiveSingleFrame]
    rw [if_pos hUpper, if_pos (by omega)]
  · exact ⟨⟨0x7E8, 8, [0x0F, 0, 0, 0, 0, 0, 0, 0]⟩, by decide, by decide, by decide⟩

/-- C8 (witness): concrete instance of the in-bounds single-frame case. -/
theorem C8_single_frame_bounds_witness :
    ReadDispatchFrame ⟨0x7E8, 8, [0x03, 9, 8, 7, 0, 0, 0, 0]⟩ =
      .singleFrame (some [9, 8, 7]) := by
  have h := C8_single_frame_bounds.1 ⟨0x7E8, 8, [0x03, 9, 8, 7, 0, 0, 0, 0]⟩
    (by decide) (by decide)
  exact h

/-- C9: decoding a response whose first byte is 0x7F reads the second and
third bytes unconditionally: inputs [0x7F] and [0x7F, s] hit the
index-out-of-range branch, while every input of length at least 3 decodes
in bounds to the negative response with serviceID from byte 2 and NRC from
byte 3, for arbitrary byte values. -/
theorem C9_negative_response_bounds :
    (∀ senderID : Nat, RawDataToMessage senderID [0x7F] true = .indexOutOfRange)
  ∧ (∀ senderID s : Nat, RawDataToMessage senderID [0x7F, s] true = .indexOutOfRange)
  ∧ (∀ senderID s n : Nat, ∀ restOfData : List Nat,
      RawDataToMessage senderID (0x7F :: s :: n :: restOfData) true =
        .ok { SenderID := senderID, ServiceID := s, Subfunction := none, NRC := some n,
              Data := restOfData, IsResponse := true, IsPositive := some false }) := by
  refine ⟨fun senderID => ?_, fun senderID s => ?_, fun senderID s n restOfData => ?_⟩
  · simp [RawDataToMessage, NegativeResponseByte]
  · simp [RawDataToMessage, NegativeResponseByte]
  · simp [RawDataToMessage, NegativeResponseByte]

/-! ### Unfolding lemmas for the loops defined by well-founded recursion -/

lemma sendFrameLoop_step_fail (outcomes : Nat → AckOutcome) (r d e : Nat) (s : List Nat)
    (hr : r < ArduinoMaxRetries) (h : outcomes r ≠ .ack) :
    sendFrameLoop outcomes r d e s
      = sendFrameLoop outcomes (r + 1) (d * ArduinoExponentialBackoffFactor) (e + 1)
          (s ++ [d]) := by
  rw [sendFrameLoop.eq_def, if_pos hr]
  cases ho : outcomes r with
  | ack => exact absurd ho h
  | nack => rfl
  | timeout => rfl

lemma sendFrameLoop_step_ack (outcomes : Nat → AckOutcome) (r d e : Nat) (s : List Nat)
    (hr : r < ArduinoMaxRetries) (h : outcomes r = .ack) :
    sendFrameLoop outcomes r d e s = { enqueues := e + 1, sleepsMs := s, acked := true } := by
  rw [sendFrameLoop.eq_def, if_pos hr, h]

lemma sendFrameLoop_exit (outcomes : Nat → AckOutcome) (d e : Nat) (s : List Nat) :
    sendFrameLoop outcomes ArduinoMaxRetries d e s
      = { enqueues := e, sleepsMs := s, acked := false } := by
  rw [sendFrameLoop.eq_def, if_neg (by omega)]

lemma sendConsecutiveFramesLoop_step (id : Nat) (data : List Nat) (fi bs : Nat)
    (h : bs < data.length) :
    sendConsecutiveFramesLoop id data fi bs =
      { ID := id
        DLC := 1 + min (data.length - bs) 7
        Data := ((PCIFrameTypeCF <<< 4) ||| (fi &&& 0x0F))
          :: ((data.drop bs).take (min (data.length - bs) 7)
              ++ List.replicate (7 - min (data.length - bs) 7) 0) }
      :: sendConsecutiveFramesLoop id data ((fi + 1) % 16) (bs + min (data.length - bs) 7) := by
  rw [sendConsecutiveFramesLoop.eq_def, if_pos h]

lemma sendConsecutiveFramesLoop_exit (id : Nat) (data : List Nat) (fi bs : Nat)
    (h : ¬ bs < data.length) :
    sendConsecutiveFramesLoop id data fi bs = [] := by
  rw [sendConsecutiveFramesLoop.eq_def, if_neg h]

lemma dtcLoop_some_of (data : List Nat) :
    ∀ fuel i, data.length - i ≤ fuel →
      data.length ≤ i ∨ (data.length + i) % 2 = 0 →
      ∃ dtcs, dtcLoop data i = some dtcs := by
  intro fuel
  induction fuel with
  | zero =>
    intro i hf h
    exact ⟨[], by rw [dtcLoop.eq_def, if_neg (by omega)]⟩
  | succ fuel ih =>
    intro i hf h
    by_cases hi : i < data.length
    · have hcase : (data.length + i) % 2 = 0 := by
        rcases h with h | h
        · omega
        · exact h
      have hi1 : i + 1 < data.length := by omega
      obtain ⟨rest, hrest⟩ := ih (i + 2) (by omega) (by omega)
      exact ⟨_, by rw [dtcLoop.eq_def, if_pos hi, if_pos hi1, hrest]⟩
    · exact ⟨[], by rw [dtcLoop.eq_def, if_neg hi]⟩

lemma dtcLoop_none_of (data : List Nat) :
    ∀ fuel i, data.length - i ≤ fuel → i < data.length →
      (data.length + i) % 2 = 1 → dtcLoop data i = none := by
  intro fuel
  induction fuel with
  | zero =>
    intro i hf hi hp
    omega
  | succ fuel ih =>
    intro i hf hi hp
    by_cases hi1 : i + 1 < data.length
    · have hrec := ih (i + 2) (by omega) (by omega) (by omega)
      rw [dtcLoop.eq_def, if_pos hi, if_pos hi1, hrec]
    · unfold dtcLoop
      rw [if_pos hi, if_neg hi1]

/-- C5 (counterexample): with every ack wait ending in a timeout, the frame
bytes are enqueued 3 times in total (once initially plus two retries), not
the 4 times (once plus three retries) the claim describes; the backoff
sleeps are 200, 400 and 800 ms, the last one after the final failed
attempt. -/
theorem C5_counterexample :
    SendFrame (fun _ => .timeout)
      = { enqueues := 3, sleepsMs := [200, 400, 800], acked := false } ∧
    ¬ SendFrame (fun _ => .timeout)
      = { enqueues := 4, sleepsMs := [200, 400, 800], acked := false } := by
  have h : SendFrame (fun _ => .timeout)
      = { enqueues := 3, sleepsMs := [200, 400, 800], acked := false } := by
    simp only [SendFrame]
    rw [sendFrameLoop_step_fail _ _ _ _ _ (by decide) (by simp),
      sendFrameLoop_step_fail _ _ _ _ _ (by decide) (by simp),
      sendFrameLoop_step_fail _ _ _ _ _ (by decide) (by simp)]
    have hexit := sendFrameLoop_exit (fun _ => AckOutcome.timeout)
      (ArduinoRetryDelayMs * ArduinoExponentialBackoffFactor * ArduinoExponentialBackoffFactor *
        ArduinoExponentialBackoffFactor) 3
      ([] ++ [ArduinoRetryDelayMs] ++ [ArduinoRetryDelayMs * ArduinoExponentialBackoffFactor]
        ++ [ArduinoRetryDelayMs * ArduinoExponentialBackoffFactor *
            ArduinoExponentialBackoffFactor])
    norm_num [ArduinoRetryDelayMs, ArduinoExponentialBackoffFactor, ArduinoMaxRetries] at hexit ⊢
    exact hexit
  exact ⟨h, by rw [h]; decide⟩

/-- C5 (amended): when every ack wait ends in a NACK or a timeout,
`SendFrame` enqueues the frame bytes 3 times in total (once initially and up
to 2 further times), sleeping 200 ms and then 400 ms between sends and a
final 800 ms after the last failed attempt, and fails with the NoAck error;
if an ACK arrives during the wait of attempt i it returns success
immediately, with i + 1 total enqueues and no further sends. -/
theorem C5_send_frame_retries (outcomes : Nat → AckOutcome) :
    ((∀ i, i < ArduinoMaxRetries → outcomes i ≠ .ack) →
      SendFrame outcomes = { enqueues := 3, sleepsMs := [200, 400, 800], acked := false })
  ∧ (∀ i, i < ArduinoMaxRetries → outcomes i = .ack → (∀ j, j < i → outcomes j ≠ .ack) →
      SendFrame outcomes =
        { enqueues := i + 1, sleepsMs := (List.range i).map (fun k => 200 * 2 ^ k),
          acked := true }) := by
  constructor
  · intro hne
    simp only [SendFrame]
    rw [sendFrameLoop_step_fail _ _ _ _ _ (by decide) (hne 0 (by decide)),
      sendFrameLoop_step_fail _ _ _ _ _ (by decide) (hne 1 (by decide)),
      sendFrameLoop_step_fail _ _ _ _ _ (by decide) (hne 2 (by decide))]
    have hexit := sendFrameLoop_exit outcomes
      (ArduinoRetryDelayMs * ArduinoExponentialBackoffFactor * ArduinoExponentialBackoffFactor *
        ArduinoExponentialBackoffFactor) 3
      ([] ++ [ArduinoRetryDelayMs] ++ [ArduinoRetryDelayMs * ArduinoExponentialBackoffFactor]
        ++ [ArduinoRetryDelayMs * ArduinoExponentialBackoffFactor *
            ArduinoExponentialBackoffFactor])
    norm_num [ArduinoRetryDelayMs, ArduinoExponentialBackoffFactor, ArduinoMaxRetries] at hexit ⊢
    exact hexit
  · intro i hi hack hprev
    simp only [SendFrame]
    rw [show ArduinoMaxRetries = 3 from rfl] at hi
    interval_cases i
    · rw [sendFrameLoop_step_ack _ _ _ _ _ (by decide) hack]
      norm_num
    · rw [sendFrameLoop_step_fail _ _ _ _ _ (by decide) (hprev 0 (by decide)),
        sendFrameLoop_step_ack _ _ _ _ _ (by decide) hack]
      norm_num [ArduinoRetryDelayMs]
      decide
    · rw [sendFrameLoop_step_fail _ _ _ _ _ (by decide) (hprev 0 (by decide)),
        sendFrameLoop_step_fail _ _ _ _ _ (by decide) (hprev 1 (by decide)),
        sendFrameLoop_step_ack _ _ _ _ _ (by decide) hack]
      norm_num [ArduinoRetryDelayMs, ArduinoExponentialBackoffFactor]
      decide

/-- C5 (witness): concrete instances of the amended retry theorem, with all
waits timing out and with an ACK on the second wait. -/
theorem C5_send_frame_retries_witness :
    SendFrame (fun _ => .nack)
      = { enqueues := 3, sleepsMs := [200, 400, 800], acked := false } ∧
    SendFrame (fun i => if i = 1 then .ack else .nack)
      = { enqueues := 2, sleepsMs := [200], acked := true } := by
  constructor
  · exact (C5_send_frame_retries (fun _ => .nack)).1 (fun i hi => by simp)
  · have h := (C5_send_frame_retries (fun i => if i = 1 then .ack else .nack)).2 1
      (by decide) (by norm_num) (fun j hj => by interval_cases j; simp)
    simpa using h

/-- C10: the DTC extraction of `ReadErrors`, scanning the response payload
in 2-byte groups from offset 1, stays in bounds exactly when the payload
length is odd or below 2; for every payload of even length at least 2 the
final group reads index len(payload), one past the end. -/
theorem C10_read_errors_bounds :
    (∀ data : List Nat, data.length % 2 = 1 ∨ data.length < 2 →
        ∃ dtcs, readErrorsDTCs data = some dtcs)
  ∧ (∀ data : List Nat, data.length % 2 = 0 → 2 ≤ data.length →
        readErrorsDTCs data = none) := by
  constructor
  · intro data h
    exact dtcLoop_some_of data data.length 1 (by omega) (by omega)
  · intro data heven hlen
    exact dtcLoop_none_of data data.length 1 (by omega) (by omega) (by omega)

/-- C10 (witness): a 5-byte payload (odd length) is scanned in bounds, a
4-byte payload (even length) hits the out-of-range access. -/
theorem C10_read_errors_bounds_witness :
    (∃ dtcs, readErrorsDTCs [9, 1, 2, 3, 4] = some dtcs) ∧
    readErrorsDTCs [9, 1, 2, 3] = none := by
  constructor
  · exact C10_read_errors_bounds.1 [9, 1, 2, 3, 4] (by norm_num)
  · exact C10_read_errors_bounds.2 [9, 1, 2, 3] (by norm_num) (by norm_num)

/-- C1 (code-bug evaluation): for the 20-byte payload 0..19 the first frame
emitted by `sendFirstFrame` has PCI byte 0x01 and length byte 0x14: the 0x1
frame-type constant is or-ed in without the 4-bit shift, so the upper
nibble is 0x0, not the 0x1 stated by the claim, by the comment in the
source and by the receive dispatch of `uds.Read`, which therefore treats
the emitted first frame as a single frame.  The consecutive frames match
the claim: PCI bytes 0x21 and 0x22 with 7 payload bytes each. -/
theorem C1_first_frame_pci_code_bug :
    sendFirstFrame TesterID 20
        [0, 1, 2, 3, 4, 5, 6, 7, 8, 9, 10, 11, 12, 13, 14, 15, 16, 17, 18, 19]
      = { ID := 0x7E0, DLC := 8, Data := [0x01, 0x14, 0, 1, 2, 3, 4, 5] } ∧
    ¬ (sendFirstFrame TesterID 20
        [0, 1, 2, 3, 4, 5, 6, 7, 8, 9, 10, 11, 12, 13, 14, 15, 16, 17, 18, 19]).Data.getD 0 0
      = 0x10 ∧
    ReadDispatchFrame (sendFirstFrame TesterID 20
        [0, 1, 2, 3, 4, 5, 6, 7, 8, 9, 10, 11, 12, 13, 14, 15, 16, 17, 18, 19])
      ≠ .firstFrame ∧
    sendConsecutiveFrames TesterID
        [0, 1, 2, 3, 4, 5, 6, 7, 8, 9, 10, 11, 12, 13, 14, 15, 16, 17, 18, 19]
      = [{ ID := 0x7E0, DLC := 8, Data := [0x21, 6, 7, 8, 9, 10, 11, 12] },
         { ID := 0x7E0, DLC := 8, Data := [0x22, 13, 14, 15, 16, 17, 18, 19] }] := by
  refine ⟨by decide, by decide, by decide, ?_⟩
  simp only [sendConsecutiveFrames]
  rw [sendConsecutiveFramesLoop_step _ _ _ _ (by decide),
    sendConsecutiveFramesLoop_step _ _ _ _ (by decide),
    sendConsecutiveFramesLoop_exit _ _ _ _ (by decide)]
  decide

/-! ### C3: link-layer round trip -/

lemma assembleFrames_nil (inFrame : Bool) (buffer : List Nat) (acc : List (List Nat)) :
    assembleFrames [] inFrame buffer acc = acc := by
  rw [assembleFrames.eq_def]

lemma assembleFrames_start (rest : List Nat) (inFrame : Bool) (buffer : List Nat)
    (acc : List (List Nat)) :
    assembleFrames (ArduinoStartMarker :: rest) inFrame buffer acc
      = assembleFrames rest true [] acc := by
  rw [assembleFrames.eq_def]
  simp [ArduinoStartMarker, ArduinoACK, ArduinoNACK]

lemma assembleFrames_end (rest : List Nat) (buffer : List Nat) (acc : List (List Nat)) :
    assembleFrames (ArduinoEndMarker :: rest) true buffer acc
      = assembleFrames rest false buffer (acc ++ [buffer]) := by
  rw [assembleFrames.eq_def]
  simp [ArduinoEndMarker, ArduinoStartMarker, ArduinoACK, ArduinoNACK]

/-- Feeding one stuffed byte to the reader state machine while in a frame
appends the original byte to the buffer. -/
lemma assembleFrames_stuffByte (b : Nat) (rest buffer : List Nat) (acc : List (List Nat)) :
    assembleFrames (stuffByte b ++ rest) true buffer acc
      = assembleFrames rest true (buffer ++ [b]) acc := by
  by_cases h1 : b = ArduinoStartMarker
  · subst h1
    rw [show stuffByte ArduinoStartMarker ++ rest
        = ArduinoEscapeChar :: 0x01 :: rest from by simp [stuffByte], assembleFrames.eq_def]
    simp [unstuffByte, ArduinoStartMarker, ArduinoEndMarker, ArduinoEscapeChar,
      ArduinoACK, ArduinoNACK]
  by_cases h2 : b = ArduinoEndMarker
  · subst h2
    rw [show stuffByte ArduinoEndMarker ++ rest
        = ArduinoEscapeChar :: 0x02 :: rest from by simp [stuffByte, ArduinoStartMarker,
          ArduinoEndMarker, ArduinoEscapeChar], assembleFrames.eq_def]
    simp [unstuffByte, ArduinoStartMarker, ArduinoEndMarker, ArduinoEscapeChar,
      ArduinoACK, ArduinoNACK]
  by_cases h3 : b = ArduinoEscapeChar
  · subst h3
    rw [show stuffByte ArduinoEscapeChar ++ rest
        = ArduinoEscapeChar :: 0x03 :: rest from by simp [stuffByte, ArduinoStartMarker,
          ArduinoEndMarker, ArduinoEscapeChar], assembleFrames.eq_def]
    simp [unstuffByte, ArduinoStartMarker, ArduinoEndMarker, ArduinoEscapeChar,
      ArduinoACK, ArduinoNACK]
  rw [show stuffByte b ++ rest = b :: rest from by simp [stuffByte, h1, h2, h3],
    assembleFrames.eq_def]
  simp [h1, h2, h3]

/-- Feeding a whole stuffed body to the reader state machine while in a
frame appends the unstuffed body to the buffer. -/
lemma assembleFrames_stuffedBody (bs : List Nat) :
    ∀ rest buffer acc, assembleFrames (bs.flatMap stuffByte ++ rest) true buffer acc
      = assembleFrames rest true (buffer ++ bs) acc := by
  induction bs with
  | nil =>
    intro rest buffer acc
    simp
  | cons b bs ih =>
    intro rest buffer acc
    rw [List.flatMap_cons, List.append_assoc, assembleFrames_stuffByte, ih]
    simp

lemma map_range_getD_eq_take (l : List Nat) (n : Nat) (h : n ≤ l.length) :
    (List.range n).map (fun i => l.getD i 0) = l.take n := by
  apply List.ext_getElem
  · simpa using h
  · intro i h1 h2
    simp only [List.getElem_map, List.getElem_range, List.getElem_take]
    exact List.getD_eq_getElem l 0 (by simp at h1; omega)

/-- The first DLC data bytes followed by the zero padding rebuild the full
8-byte data array of a frame whose bytes beyond DLC are zero. -/
lemma data_rebuild (l : List Nat) (dlc : Nat) (hlen : l.length = 8) (hdlc : dlc ≤ 8)
    (hpad : l.drop dlc = List.replicate (8 - dlc) 0) :
    (List.range dlc).map (fun i => l.getD i 0) ++ List.replicate (8 - dlc) 0 = l := by
  rw [map_range_getD_eq_take l dlc (by omega), ← hpad, List.take_append_drop]

/-- Evaluation of the frame-validation step on a well-shaped body. -/
lemma readFrame_body (hi lo dlcv : Nat) (db : List Nat) (crc : Nat)
    (hdb : db.length = dlcv) (hdlc : dlcv ≤ 8) :
    readFrame ([hi, lo, dlcv] ++ (db ++ [crc]))
      = if calculateCRC8 ⟨(hi <<< 8) ||| lo, dlcv, db ++ List.replicate (8 - dlcv) 0⟩ = crc
        then some ⟨(hi <<< 8) ||| lo, dlcv, db ++ List.replicate (8 - dlcv) 0⟩
        else none := by
  have hlen : ([hi, lo, dlcv] ++ (db ++ [crc])).length = dlcv + 4 := by simp [hdb]
  have hg0 : ([hi, lo, dlcv] ++ (db ++ [crc])).getD 0 0 = hi := rfl
  have hg1 : ([hi, lo, dlcv] ++ (db ++ [crc])).getD 1 0 = lo := rfl
  have hg2 : ([hi, lo, dlcv] ++ (db ++ [crc])).getD 2 0 = dlcv := rfl
  have hdrop : ([hi, lo, dlcv] ++ (db ++ [crc])).drop 3 = db ++ [crc] := rfl
  have htake : (db ++ [crc]).take dlcv = db := by
    rw [← hdb]
    exact List.take_left db [crc]
  have hcs : ([hi, lo, dlcv] ++ (db ++ [crc])).getD (3 + dlcv) 0 = crc := by
    rw [List.getD_append_right _ _ _ _ (by simp)]
    have h3 : 3 + dlcv - ([hi, lo, dlcv] : List Nat).length = dlcv := by simp
    rw [h3, List.getD_append_right _ _ _ _ (by omega)]
    simp [hdb]
  simp only [readFrame, hlen, hg0, hg1, hg2, hdrop, htake, hcs]
  rw [if_neg (by omega), if_neg (by omega), if_neg (by omega)]

/-- The frame validation accepts the encoded body of a well-formed frame and
rebuilds the frame. -/
lemma readFrame_frameToBytes (f : CanFrame) (hID : f.ID ≤ 0x7FF) (hDLC : f.DLC ≤ 8)
    (hlen : f.Data.length = 8)
    (hpad : f.Data.drop f.DLC = List.replicate (8 - f.DLC) 0) :
    readFrame (frameToBytes f) = some f := by
  have hdb : ((List.range f.DLC).map (fun i => f.Data.getD i 0)).length = f.DLC := by simp
  have h1 : frameToBytes f
      = [(f.ID >>> 8) &&& 0xFF, f.ID &&& 0xFF, f.DLC]
        ++ (((List.range f.DLC).map (fun i => f.Data.getD i 0)) ++ [calculateCRC8 f]) := by
    simp [frameToBytes]
  rw [h1, readFrame_body _ _ _ _ _ hdb hDLC,
    data_rebuild f.Data f.DLC hlen hDLC hpad, id_reassemble f.ID (by omega), if_pos rfl]

/-- C3: for every CAN frame satisfying the data-model invariant (DLC at
most 8, data beyond DLC zero in the 8-byte array, 11-bit ID), decoding the
link-encoded byte stream through the reader state machine and the frame
validation yields exactly the frame back. -/
theorem C3_link_roundtrip (f : CanFrame) (hID : f.ID ≤ 0x7FF) (hDLC : f.DLC ≤ 8)
    (hlen : f.Data.length = 8)
    (hpad : f.Data.drop f.DLC = List.replicate (8 - f.DLC) 0) :
    decodeLink (createFrameBytes f) = some f := by
  have hassemble : assembleFrames (createFrameBytes f) false [] [] = [frameToBytes f] := by
    rw [createFrameBytes, assembleFrames_start, assembleFrames_stuffedBody]
    rw [show [ArduinoEndMarker] = ArduinoEndMarker :: [] from rfl, assembleFrames_end,
      assembleFrames_nil]
    simp
  simp only [decodeLink, hassemble]
  exact readFrame_frameToBytes f hID hDLC hlen hpad

/-- C3 (witness): round trip on a concrete frame. -/
theorem C3_link_roundtrip_witness :
    decodeLink (createFrameBytes ⟨0x123, 3, [1, 2, 3, 0, 0, 0, 0, 0]⟩)
      = some ⟨0x123, 3, [1, 2, 3, 0, 0, 0, 0, 0]⟩ :=
  C3_link_roundtrip ⟨0x123, 3, [1, 2, 3, 0, 0, 0, 0, 0]⟩ (by decide) (by decide) (by decide)
    (by decide)

end Husk
